import Mathlib

/-!
Verification of the reasoning-agent core of the Aequitas-Fin repository.

The definitions below are a shallow embedding of the Python sources:
- src/reasoning/state.py   (AgentState, create_initial_state)
- src/reasoning/nodes.py   (router_node, rag_retrieval_node, web_search_node,
                            generate_answer_node, route_next_node)
- src/reasoning/graph.py   (ReasoningGraph._build_graph, ReasoningGraph.run)
- src/reasoning/tools.py   (TavilySearchTool.search, LocalRetrievalTool.retrieve)

External collaborators (the Tavily client, the Qdrant database, the embedding
model, the language model) are modelled as function parameters; a call that can
raise an exception is modelled with Except or Option (none / error = raise).
The LangGraph state-merge semantics is modelled explicitly: the messages
channel of AgentState is declared with the operator.add reducer in state.py,
so the graph concatenates the messages list returned by a node onto the
current messages list, while every other field is last-write-wins.
-/

/-- langchain.schema messages, as used by nodes.py (HumanMessage / AIMessage). -/
inductive BaseMessage where
  | human (content : String)
  | ai (content : String)
deriving DecidableEq

/-- The AgentState TypedDict of src/reasoning/state.py. -/
structure AgentState where
  query : String
  messages : List BaseMessage
  retrieved_docs : Option (List String)
  web_results : Option (List String)
  next_action : Option String
  answer : Option String
  iteration : Nat
  max_iterations : Nat
deriving DecidableEq

/-- create_initial_state of src/reasoning/state.py. -/
def create_initial_state (query : String) (max_iterations : Nat) : AgentState :=
  { query := query
    messages := []
    retrieved_docs := none
    web_results := none
    next_action := none
    answer := none
    iteration := 0
    max_iterations := max_iterations }

/-- MAX_CONTEXT_LENGTH constant of src/reasoning/nodes.py. -/
def MAX_CONTEXT_LENGTH : Nat := 500

/-- Python str.lower as a character-wise map (query.lower() in router_node). -/
def lowerStr (s : String) : String := ⟨s.data.map Char.toLower⟩

/-- The Python substring test `sub in s`. -/
def strContains (s sub : String) : Bool := decide (List.IsInfix sub.data s.data)

/-- The web_keywords list built in router_node: five fixed keywords plus the
decimal strings of the current year through the current year plus 4. -/
def web_keywords (current_year : Nat) : List String :=
  ["current", "latest", "news", "today", "recent"] ++
    (List.range 5).map (fun i => toString (current_year + i))

/-- needs_web of router_node: any web keyword occurs in the lowercased query. -/
def needs_web (current_year : Nat) (query : String) : Bool :=
  (web_keywords current_year).any (fun keyword => strContains (lowerStr query) keyword)

/-- router_node of src/reasoning/nodes.py: the returned state dict.
The current year is a parameter (datetime.now().year in the source). -/
def router_node (current_year : Nat) (state : AgentState) : AgentState :=
  let nw := needs_web current_year state.query
  let next_action : String :=
    if state.retrieved_docs = none ∧ nw = false then "retrieve"
    else if nw = true ∧ state.web_results = none then "search_web"
    else "generate"
  { state with next_action := some next_action, iteration := state.iteration + 1 }

/-- rag_retrieval_node of src/reasoning/nodes.py; retrieval_tool.retrieve is the
function parameter tool. -/
def rag_retrieval_node (tool : String → List String) (state : AgentState) : AgentState :=
  let documents := tool state.query
  { state with
      retrieved_docs := some documents
      messages := state.messages ++
        [BaseMessage.human ("Retrieved " ++ toString documents.length ++
          " documents from local database")] }

/-- web_search_node of src/reasoning/nodes.py; search_tool.search is the
function parameter tool. -/
def web_search_node (tool : String → List String) (state : AgentState) : AgentState :=
  let results := tool state.query
  { state with
      web_results := some results
      messages := state.messages ++
        [BaseMessage.human ("Retrieved " ++ toString results.length ++
          " results from web search")] }

/-- The per-item truncation of generate_answer_node: doc[:500], with the
marker appended when the item was longer than the budget. -/
def truncItem (doc : String) : String :=
  let truncated := doc.take MAX_CONTEXT_LENGTH
  if doc.length > MAX_CONTEXT_LENGTH then truncated ++ "... [truncated]" else truncated

/-- The enumerate(items[:3], 1) loop body of generate_answer_node: each kept
item is rendered as its one-based index, a dot and the truncated content. -/
def numberFrom : Nat → List String → List String
  | _, [] => []
  | i, doc :: rest => (toString i ++ ". " ++ truncItem doc) :: numberFrom (i + 1) rest

/-- The local-knowledge section of the context (generate_answer_node). -/
def localSection (retrieved_docs : List String) : List String :=
  if retrieved_docs = [] then []
  else "## Local Knowledge Base:" :: numberFrom 1 (retrieved_docs.take 3)

/-- The web-results section of the context (generate_answer_node). -/
def webSection (web_results : List String) : List String :=
  if web_results = [] then []
  else "\n## Web Search Results:" :: numberFrom 1 (web_results.take 3)

/-- The context_parts list of generate_answer_node. -/
def contextParts (retrieved_docs web_results : List String) : List String :=
  localSection retrieved_docs ++ webSection web_results

/-- The context string of generate_answer_node: newline join of the parts, or
the sentinel when no part was produced. -/
def assembleContext (retrieved_docs web_results : List String) : String :=
  if contextParts retrieved_docs web_results = [] then "No additional context available."
  else String.intercalate "\n" (contextParts retrieved_docs web_results)

/-- The prompt f-string of generate_answer_node. -/
def buildPrompt (context query : String) : String :=
  "Based on the following context, please answer the user\x27s query.\n\nContext:\n" ++
    context ++ "\n\nUser Query: " ++ query ++
    "\n\nProvide a comprehensive and accurate answer based on the available information. If the context doesn\x27t contain enough information, acknowledge this in your response."

/-- The fixed degraded answer of the except branch of generate_answer_node. -/
def degradedAnswer : String :=
  "I apologize, but I encountered an issue while generating the answer. Please try again."

/-- llm.invoke at the generate node. The synthesizer slot is optional: none
models a graph constructed with llm = None, in which case the attribute access
llm.invoke raises; a configured synthesizer may itself raise (its result none). -/
def invokeLLM (llm : Option (String → Option String)) (prompt : String) : Option String :=
  match llm with
  | none => none
  | some f => f prompt

/-- generate_answer_node of src/reasoning/nodes.py: assembles the context,
invokes the synthesizer and substitutes the fixed degraded answer when the
invocation raises (the try/except block around llm.invoke). -/
def generate_answer_node (llm : Option (String → Option String)) (state : AgentState) :
    AgentState :=
  let retrieved_docs := state.retrieved_docs.getD []
  let web_results := state.web_results.getD []
  let context := assembleContext retrieved_docs web_results
  let prompt := buildPrompt context state.query
  let answer :=
    match invokeLLM llm prompt with
    | some a => a
    | none => degradedAnswer
  { state with answer := some answer, messages := state.messages ++ [BaseMessage.ai answer] }

/-- route_next_node of src/reasoning/nodes.py: the conditional-edge function. -/
def route_next_node (state : AgentState) : String :=
  if state.iteration ≥ state.max_iterations then "generate"
  else if state.next_action = some "retrieve" then "retrieve"
  else if state.next_action = some "search_web" then "search_web"
  else "generate"

/-- The LangGraph channel update: the messages channel carries the
operator.add reducer (state.py), so the returned messages list is concatenated
onto the current one; every other field takes the returned value. -/
def applyUpdate (old update : AgentState) : AgentState :=
  { update with messages := old.messages ++ update.messages }

/-- The constructor arguments of ReasoningGraph (graph.py): an optional
retrieval tool, an optional search tool, the llm slot, and the current year
used by router_node. -/
structure GraphConfig where
  current_year : Nat
  retrieval_tool : Option (String → List String)
  search_tool : Option (String → List String)
  llm : Option (String → Option String)

/-- The conditional-edge mapping of ReasoningGraph._build_graph: the route
names map to themselves when the corresponding tool is wired in, and fall back
to the generate node otherwise. -/
def edgeTarget (cfg : GraphConfig) (route : String) : String :=
  if route = "retrieve" then
    (if cfg.retrieval_tool.isSome then "retrieve" else "generate")
  else if route = "search_web" then
    (if cfg.search_tool.isSome then "search_web" else "generate")
  else "generate"

/-- The outcome of a graph run: the dispatched (non-routing) node names in
order, every state reached after a node execution, and the final state. -/
structure RunResult where
  dispatches : List String
  states : List AgentState
  final : AgentState

/-- The compiled graph execution: router, conditional edge, dispatched node,
and back to the router from the two evidence nodes; the generate node ends the
run. Fuel-indexed so the recursion is structural; none means out of fuel. -/
def loop (cfg : GraphConfig) : Nat → AgentState → Option RunResult
  | 0, _ => none
  | fuel + 1, state =>
    let s1 := applyUpdate state (router_node cfg.current_year state)
    let target := edgeTarget cfg (route_next_node s1)
    if target = "retrieve" then
      match cfg.retrieval_tool with
      | none => none
      | some tool =>
        let s2 := applyUpdate s1 (rag_retrieval_node tool s1)
        match loop cfg fuel s2 with
        | none => none
        | some r => some ⟨"retrieve" :: r.dispatches, s1 :: s2 :: r.states, r.final⟩
    else if target = "search_web" then
      match cfg.search_tool with
      | none => none
      | some tool =>
        let s2 := applyUpdate s1 (web_search_node tool s1)
        match loop cfg fuel s2 with
        | none => none
        | some r => some ⟨"search_web" :: r.dispatches, s1 :: s2 :: r.states, r.final⟩
    else
      let s2 := applyUpdate s1 (generate_answer_node cfg.llm s1)
      some ⟨["generate"], [s1, s2], s2⟩

/-- ReasoningGraph.run: invoke the graph on the initial state. One unit of
fuel per loop cycle; max_iterations + 1 cycles always suffice (proved below). -/
def run (cfg : GraphConfig) (query : String) (max_iterations : Nat) : Option RunResult :=
  loop cfg (max_iterations + 1) (create_initial_state query max_iterations)

/-- One search result dict of the Tavily response (tools.py), with the three
optionally-present keys read by TavilySearchTool.search. -/
structure TavilyResult where
  title : Option String
  url : Option String
  content : Option String

/-- The Tavily response dict: the results key may be absent. -/
structure TavilyResponse where
  results : Option (List TavilyResult)

/-- The formatted string built for one result in TavilySearchTool.search. -/
def formatTavilyResult (r : TavilyResult) : String :=
  "Title: " ++ r.title.getD "" ++ "\nURL: " ++ r.url.getD "" ++ "\n" ++ r.content.getD ""

/-- TavilySearchTool.search of src/reasoning/tools.py: the whole body is
wrapped in try/except returning the empty list on any exception. -/
def tavilySearch (client : String → Except String TavilyResponse) (query : String) :
    List String :=
  match client query with
  | Except.error _ => []
  | Except.ok response =>
    match response.results with
    | none => []
    | some rs => rs.map formatTavilyResult

/-- One scored point returned by the Qdrant search, with its payload dict. -/
structure ScoredPoint where
  payload : List (String × String)

/-- The QdrantDatabase collaborator used by LocalRetrievalTool: each call can
raise (error) or return a value. -/
structure QdrantDatabase where
  collection_exists : String → Except String Bool
  search : String → List Int → Nat → Except String (List ScoredPoint)

/-- The document-extraction loop of LocalRetrievalTool.retrieve: payload text
under the text key, else under the content key, else skipped. -/
def extractDocuments (results : List ScoredPoint) : List String :=
  results.foldl
    (fun documents r =>
      match List.lookup "text" r.payload with
      | some t => documents ++ [t]
      | none =>
        match List.lookup "content" r.payload with
        | some c => documents ++ [c]
        | none => documents)
    []

/-- LocalRetrievalTool.retrieve of src/reasoning/tools.py: the whole body is
wrapped in try/except returning the empty list on any exception; a missing
collection also yields the empty list. -/
def localRetrieve (database : QdrantDatabase) (collection_name : String)
    (embeddings : String → Except String (List Int)) (top_k : Nat) (query : String) :
    List String :=
  match
    (do
      let found ← database.collection_exists collection_name
      if found = false then
        pure []
      else do
        let query_vector ← embeddings query
        let results ← database.search collection_name query_vector top_k
        pure (extractDocuments results) : Except String (List String)) with
  | Except.ok documents => documents
  | Except.error _ => []

/-! ### Basic projection lemmas for the state updates -/

@[simp] theorem applyUpdate_query (old upd : AgentState) :
    (applyUpdate old upd).query = upd.query := rfl

@[simp] theorem applyUpdate_retrieved_docs (old upd : AgentState) :
    (applyUpdate old upd).retrieved_docs = upd.retrieved_docs := rfl

@[simp] theorem applyUpdate_web_results (old upd : AgentState) :
    (applyUpdate old upd).web_results = upd.web_results := rfl

@[simp] theorem applyUpdate_next_action (old upd : AgentState) :
    (applyUpdate old upd).next_action = upd.next_action := rfl

@[simp] theorem applyUpdate_answer (old upd : AgentState) :
    (applyUpdate old upd).answer = upd.answer := rfl

@[simp] theorem applyUpdate_iteration (old upd : AgentState) :
    (applyUpdate old upd).iteration = upd.iteration := rfl

@[simp] theorem applyUpdate_max_iterations (old upd : AgentState) :
    (applyUpdate old upd).max_iterations = upd.max_iterations := rfl

@[simp] theorem applyUpdate_messages (old upd : AgentState) :
    (applyUpdate old upd).messages = old.messages ++ upd.messages := rfl

@[simp] theorem router_node_query (y : Nat) (s : AgentState) :
    (router_node y s).query = s.query := rfl

@[simp] theorem router_node_retrieved_docs (y : Nat) (s : AgentState) :
    (router_node y s).retrieved_docs = s.retrieved_docs := rfl

@[simp] theorem router_node_web_results (y : Nat) (s : AgentState) :
    (router_node y s).web_results = s.web_results := rfl

@[simp] theorem router_node_answer (y : Nat) (s : AgentState) :
    (router_node y s).answer = s.answer := rfl

@[simp] theorem router_node_iteration (y : Nat) (s : AgentState) :
    (router_node y s).iteration = s.iteration + 1 := rfl

@[simp] theorem router_node_max_iterations (y : Nat) (s : AgentState) :
    (router_node y s).max_iterations = s.max_iterations := rfl

@[simp] theorem router_node_messages (y : Nat) (s : AgentState) :
    (router_node y s).messages = s.messages := rfl

theorem router_node_next_action (y : Nat) (s : AgentState) :
    (router_node y s).next_action =
      some (if s.retrieved_docs = none ∧ needs_web y s.query = false then "retrieve"
        else if needs_web y s.query = true ∧ s.web_results = none then "search_web"
        else "generate") := rfl

@[simp] theorem rag_retrieval_node_query (tool : String → List String) (s : AgentState) :
    (rag_retrieval_node tool s).query = s.query := rfl

@[simp] theorem rag_retrieval_node_retrieved_docs (tool : String → List String) (s : AgentState) :
    (rag_retrieval_node tool s).retrieved_docs = some (tool s.query) := rfl

@[simp] theorem rag_retrieval_node_web_results (tool : String → List String) (s : AgentState) :
    (rag_retrieval_node tool s).web_results = s.web_results := rfl

@[simp] theorem web_search_node_query (tool : String → List String) (s : AgentState) :
    (web_search_node tool s).query = s.query := rfl

@[simp] theorem web_search_node_retrieved_docs (tool : String → List String) (s : AgentState) :
    (web_search_node tool s).retrieved_docs = s.retrieved_docs := rfl

@[simp] theorem web_search_node_web_results (tool : String → List String) (s : AgentState) :
    (web_search_node tool s).web_results = some (tool s.query) := rfl

@[simp] theorem generate_answer_node_retrieved_docs (llm : Option (String → Option String))
    (s : AgentState) : (generate_answer_node llm s).retrieved_docs = s.retrieved_docs := rfl

@[simp] theorem create_initial_state_query (q : String) (mi : Nat) :
    (create_initial_state q mi).query = q := rfl

@[simp] theorem create_initial_state_retrieved_docs (q : String) (mi : Nat) :
    (create_initial_state q mi).retrieved_docs = none := rfl

@[simp] theorem create_initial_state_web_results (q : String) (mi : Nat) :
    (create_initial_state q mi).web_results = none := rfl

@[simp] theorem create_initial_state_iteration (q : String) (mi : Nat) :
    (create_initial_state q mi).iteration = 0 := rfl

@[simp] theorem create_initial_state_max_iterations (q : String) (mi : Nat) :
    (create_initial_state q mi).max_iterations = mi := rfl

theorem route_next_node_eq (s : AgentState) :
    route_next_node s =
      if s.iteration ≥ s.max_iterations then "generate"
      else if s.next_action = some "retrieve" then "retrieve"
      else if s.next_action = some "search_web" then "search_web"
      else "generate" := rfl

/-! ### Claim C1 -/

/-- C1: the routing policy is a deterministic function of the state: if
retrieved_docs is absent and the query is not recency-sensitive the router
chooses retrieve; otherwise, if the query is recency-sensitive and web_results
is absent, it chooses search_web; otherwise it chooses generate. -/
theorem C1_routing_policy (current_year : Nat) (s : AgentState) :
    (s.retrieved_docs = none → needs_web current_year s.query = false →
      (router_node current_year s).next_action = some "retrieve") ∧
    (needs_web current_year s.query = true → s.web_results = none →
      (router_node current_year s).next_action = some "search_web") ∧
    (¬(s.retrieved_docs = none ∧ needs_web current_year s.query = false) →
      ¬(needs_web current_year s.query = true ∧ s.web_results = none) →
      (router_node current_year s).next_action = some "generate") := by
  refine ⟨?_, ?_, ?_⟩ <;> intro h1 h2 <;> rw [router_node_next_action]
  · rw [if_pos ⟨h1, h2⟩]
  · rw [if_neg (by simp [h1]), if_pos ⟨h1, h2⟩]
  · rw [if_neg h1, if_neg h2]

/-- Witness for C1 at a concrete state: a plain factual query with nothing
retrieved yet routes to retrieve. -/
theorem C1_routing_policy_witness :
    (router_node 2025 (create_initial_state "What is diversification?" 5)).next_action =
      some "retrieve" :=
  (C1_routing_policy 2025 (create_initial_state "What is diversification?" 5)).1 rfl (by decide)

/-! ### Claim C2 -/

/-- C2 counterexample: at the reachable state after the first policy
evaluation for the plain query hello with max_iterations = 1, the policy
chose retrieve and iteration does not exceed max_iterations (1 > 1 is false),
yet route_next_node replaces the action by generate: the forcing boundary in
the code is iteration >= max_iterations, not iteration > max_iterations. -/
theorem C2_budget_boundary_counterexample :
    (applyUpdate (create_initial_state "hello" 1)
        (router_node 2025 (create_initial_state "hello" 1))).next_action = some "retrieve" ∧
    ¬((applyUpdate (create_initial_state "hello" 1)
        (router_node 2025 (create_initial_state "hello" 1))).iteration >
      (applyUpdate (create_initial_state "hello" 1)
        (router_node 2025 (create_initial_state "hello" 1))).max_iterations) ∧
    route_next_node (applyUpdate (create_initial_state "hello" 1)
        (router_node 2025 (create_initial_state "hello" 1))) = "generate" := by
  decide

/-- C2 amended: after a policy evaluation the dispatched action is replaced by
generate if and only if iteration >= max_iterations; when iteration is
strictly below max_iterations the chosen action is dispatched unchanged. -/
theorem C2_budget_forces_generate (s : AgentState) :
    (s.iteration ≥ s.max_iterations → route_next_node s = "generate") ∧
    (s.iteration < s.max_iterations →
      ∀ a, s.next_action = some a →
        (a = "retrieve" ∨ a = "search_web" ∨ a = "generate") →
        route_next_node s = a) := by
  constructor
  · intro h
    rw [route_next_node_eq, if_pos h]
  · intro h a ha hcases
    rw [route_next_node_eq, if_neg (Nat.not_le.mpr h), ha]
    rcases hcases with rfl | rfl | rfl
    · rw [if_pos rfl]
    · rw [if_neg (by decide), if_pos rfl]
    · rw [if_neg (by decide), if_neg (by decide)]

/-- Witness for the amended C2 at a concrete state with spare budget. -/
theorem C2_budget_forces_generate_witness :
    route_next_node
      { query := "hello", messages := [], retrieved_docs := none, web_results := none,
        next_action := some "retrieve", answer := none, iteration := 1,
        max_iterations := 5 } = "retrieve" :=
  (C2_budget_forces_generate _).2 (by decide) "retrieve" rfl (Or.inl rfl)

/-! ### Claim C10 -/

/-- C10: recency classification is a case-insensitive substring test against
the five fixed keywords and the decimal strings of the current year through
the current year plus 4; in particular a keyword inside a longer word
(recurrent contains current) makes the query recency-sensitive. -/
theorem C10_recency_classification (year : Nat) (q : String) :
    (needs_web year q = true ↔
      ∃ k : String,
        (k ∈ (["current", "latest", "news", "today", "recent"] : List String) ∨
          ∃ y : Nat, year ≤ y ∧ y ≤ year + 4 ∧ k = toString y) ∧
        ∃ pre post : List Char, pre ++ k.data ++ post = (lowerStr q).data) ∧
    needs_web year "recurrent" = true := by
  constructor
  · unfold needs_web web_keywords strContains
    rw [List.any_eq_true]
    constructor
    · rintro ⟨k, hk, hp⟩
      refine ⟨k, ?_, ?_⟩
      · rcases List.mem_append.mp hk with h | h
        · exact Or.inl h
        · right
          obtain ⟨i, hi, rfl⟩ := List.mem_map.mp h
          have hi5 := List.mem_range.mp hi
          exact ⟨year + i, by omega, by omega, rfl⟩
      · obtain ⟨pre, post, hpp⟩ := of_decide_eq_true hp
        exact ⟨pre, post, hpp⟩
    · rintro ⟨k, hmem, pre, post, hinfix⟩
      refine ⟨k, ?_, decide_eq_true ⟨pre, post, hinfix⟩⟩
      rcases hmem with h | ⟨y, h1, h2, rfl⟩
      · exact List.mem_append.mpr (Or.inl h)
      · refine List.mem_append.mpr (Or.inr (List.mem_map.mpr
          ⟨y - year, List.mem_range.mpr (by omega), ?_⟩))
        have hy : year + (y - year) = y := by omega
        rw [hy]
  · have h : strContains (lowerStr "recurrent") "current" = true := by decide
    simp [needs_web, web_keywords, List.any_append, List.any_cons, h]

/-! ### Lemmas about the orchestration loop -/

theorem edgeTarget_generate (cfg : GraphConfig) : edgeTarget cfg "generate" = "generate" := by
  unfold edgeTarget
  rw [if_neg (by decide), if_neg (by decide)]

theorem edgeTarget_retrieve (cfg : GraphConfig) :
    edgeTarget cfg "retrieve" = if cfg.retrieval_tool.isSome then "retrieve" else "generate" := by
  unfold edgeTarget
  rw [if_pos rfl]

theorem edgeTarget_search (cfg : GraphConfig) :
    edgeTarget cfg "search_web" =
      if cfg.search_tool.isSome then "search_web" else "generate" := by
  unfold edgeTarget
  rw [if_neg (by decide), if_pos rfl]

theorem route_next_of_generate (s : AgentState) (h : s.next_action = some "generate") :
    route_next_node s = "generate" := by
  rw [route_next_node_eq, h]
  split
  · rfl
  · rw [if_neg (by decide), if_neg (by decide)]

/-- One loop cycle that dispatches the generate node ends the run. -/
theorem loop_generate_step (cfg : GraphConfig) (fuel : Nat) (s : AgentState)
    (h : edgeTarget cfg (route_next_node (applyUpdate s (router_node cfg.current_year s))) =
      "generate") :
    loop cfg (fuel + 1) s =
      some ⟨["generate"],
        [applyUpdate s (router_node cfg.current_year s),
          applyUpdate (applyUpdate s (router_node cfg.current_year s))
            (generate_answer_node cfg.llm (applyUpdate s (router_node cfg.current_year s)))],
        applyUpdate (applyUpdate s (router_node cfg.current_year s))
          (generate_answer_node cfg.llm (applyUpdate s (router_node cfg.current_year s)))⟩ := by
  simp only [loop]
  rw [h]
  rw [if_neg (by decide), if_neg (by decide)]

/-- One loop cycle that dispatches the retrieve node recurses on the state
with retrieved_docs filled in. -/
theorem loop_retrieve_step (cfg : GraphConfig) (fuel : Nat) (s : AgentState)
    (tool : String → List String) (htool : cfg.retrieval_tool = some tool)
    (h : edgeTarget cfg (route_next_node (applyUpdate s (router_node cfg.current_year s))) =
      "retrieve") :
    loop cfg (fuel + 1) s =
      match loop cfg fuel (applyUpdate (applyUpdate s (router_node cfg.current_year s))
          (rag_retrieval_node tool (applyUpdate s (router_node cfg.current_year s)))) with
      | none => none
      | some r =>
        some ⟨"retrieve" :: r.dispatches,
          applyUpdate s (router_node cfg.current_year s) ::
            applyUpdate (applyUpdate s (router_node cfg.current_year s))
              (rag_retrieval_node tool (applyUpdate s (router_node cfg.current_year s))) ::
            r.states,
          r.final⟩ := by
  simp only [loop]
  rw [h, htool]
  rw [if_pos rfl]

/-- One loop cycle that dispatches the search node recurses on the state with
web_results filled in. -/
theorem loop_search_step (cfg : GraphConfig) (fuel : Nat) (s : AgentState)
    (tool : String → List String) (htool : cfg.search_tool = some tool)
    (h : edgeTarget cfg (route_next_node (applyUpdate s (router_node cfg.current_year s))) =
      "search_web") :
    loop cfg (fuel + 1) s =
      match loop cfg fuel (applyUpdate (applyUpdate s (router_node cfg.current_year s))
          (web_search_node tool (applyUpdate s (router_node cfg.current_year s)))) with
      | none => none
      | some r =>
        some ⟨"search_web" :: r.dispatches,
          applyUpdate s (router_node cfg.current_year s) ::
            applyUpdate (applyUpdate s (router_node cfg.current_year s))
              (web_search_node tool (applyUpdate s (router_node cfg.current_year s))) ::
            r.states,
          r.final⟩ := by
  simp only [loop]
  rw [h, htool]
  rw [if_neg (by decide), if_pos rfl]

/-- Every successful loop run dispatches at most one node per unit of fuel. -/
theorem loop_dispatches_le (cfg : GraphConfig) :
    ∀ fuel s r, loop cfg fuel s = some r → r.dispatches.length ≤ fuel := by
  intro fuel
  induction fuel with
  | zero =>
    intro s r h
    exact absurd h (by simp [loop])
  | succ n ih =>
    intro s r h
    simp only [loop] at h
    split at h
    · split at h
      · exact absurd h (by simp)
      · split at h
        · exact absurd h (by simp)
        · rename_i r' heq
          obtain rfl := Option.some.inj h
          simpa using Nat.succ_le_succ (ih _ _ heq)
    · split at h
      · split at h
        · exact absurd h (by simp)
        · split at h
          · exact absurd h (by simp)
          · rename_i r' heq
            obtain rfl := Option.some.inj h
            simpa using Nat.succ_le_succ (ih _ _ heq)
      · obtain rfl := Option.some.inj h
        simp

/-- Every successful loop run ends by dispatching the generate node: the final
state is a generate-node update of some state. -/
theorem loop_final_eq_generate (cfg : GraphConfig) :
    ∀ fuel s r, loop cfg fuel s = some r →
      ∃ t : AgentState, r.final = applyUpdate t (generate_answer_node cfg.llm t) := by
  intro fuel
  induction fuel with
  | zero =>
    intro s r h
    exact absurd h (by simp [loop])
  | succ n ih =>
    intro s r h
    simp only [loop] at h
    split at h
    · split at h
      · exact absurd h (by simp)
      · split at h
        · exact absurd h (by simp)
        · rename_i r' heq
          obtain rfl := Option.some.inj h
          obtain ⟨t, ht⟩ := ih _ _ heq
          exact ⟨t, ht⟩
    · split at h
      · split at h
        · exact absurd h (by simp)
        · split at h
          · exact absurd h (by simp)
          · rename_i r' heq
            obtain rfl := Option.some.inj h
            obtain ⟨t, ht⟩ := ih _ _ heq
            exact ⟨t, ht⟩
      · obtain rfl := Option.some.inj h
        exact ⟨applyUpdate s (router_node cfg.current_year s), rfl⟩

/-- When neither evidence guard is open, the very next cycle dispatches the
generate node and the run ends. -/
theorem loop_gen_of_policy (cfg : GraphConfig) (fuel : Nat) (s : AgentState)
    (hc1 : ¬(s.retrieved_docs = none ∧ needs_web cfg.current_year s.query = false))
    (hc2 : ¬(needs_web cfg.current_year s.query = true ∧ s.web_results = none)) :
    ∃ r, loop cfg (fuel + 1) s = some r := by
  have hna : (router_node cfg.current_year s).next_action = some "generate" := by
    rw [router_node_next_action, if_neg hc1, if_neg hc2]
  have hroute : route_next_node (applyUpdate s (router_node cfg.current_year s)) =
      "generate" :=
    route_next_of_generate _ (by rw [applyUpdate_next_action, hna])
  exact ⟨_, loop_generate_step cfg fuel s (by rw [hroute, edgeTarget_generate])⟩

/-- The orchestration loop always terminates within two cycles from any state:
each evidence source can fire at most once before the policy falls through to
the generate node. -/
theorem loop_terminates (cfg : GraphConfig) (fuel : Nat) (s : AgentState) :
    ∃ r, loop cfg (fuel + 2) s = some r := by
  by_cases hc1 : s.retrieved_docs = none ∧ needs_web cfg.current_year s.query = false
  · have hna : (router_node cfg.current_year s).next_action = some "retrieve" := by
      rw [router_node_next_action, if_pos hc1]
    by_cases hforce : (applyUpdate s (router_node cfg.current_year s)).iteration ≥
        (applyUpdate s (router_node cfg.current_year s)).max_iterations
    · have hroute : route_next_node (applyUpdate s (router_node cfg.current_year s)) =
          "generate" := by
        rw [route_next_node_eq, if_pos hforce]
      exact ⟨_, loop_generate_step cfg (fuel + 1) s (by rw [hroute, edgeTarget_generate])⟩
    · have hroute : route_next_node (applyUpdate s (router_node cfg.current_year s)) =
          "retrieve" := by
        rw [route_next_node_eq, if_neg hforce, applyUpdate_next_action, hna, if_pos rfl]
      rcases htool : cfg.retrieval_tool with _ | tool
      · have htgt : edgeTarget cfg
            (route_next_node (applyUpdate s (router_node cfg.current_year s))) =
            "generate" := by
          rw [hroute, edgeTarget_retrieve, htool]
          rfl
        exact ⟨_, loop_generate_step cfg (fuel + 1) s htgt⟩
      · have htgt : edgeTarget cfg
            (route_next_node (applyUpdate s (router_node cfg.current_year s))) =
            "retrieve" := by
          rw [hroute, edgeTarget_retrieve, htool]
          rfl
        obtain ⟨r, hr⟩ := loop_gen_of_policy cfg fuel
          (applyUpdate (applyUpdate s (router_node cfg.current_year s))
            (rag_retrieval_node tool (applyUpdate s (router_node cfg.current_year s))))
          (by simp) (by simp [hc1.2])
        exact ⟨_, by rw [loop_retrieve_step cfg (fuel + 1) s tool htool htgt, hr]⟩
  · by_cases hc2 : needs_web cfg.current_year s.query = true ∧ s.web_results = none
    · have hna : (router_node cfg.current_year s).next_action = some "search_web" := by
        rw [router_node_next_action, if_neg hc1, if_pos hc2]
      by_cases hforce : (applyUpdate s (router_node cfg.current_year s)).iteration ≥
          (applyUpdate s (router_node cfg.current_year s)).max_iterations
      · have hroute : route_next_node (applyUpdate s (router_node cfg.current_year s)) =
            "generate" := by
          rw [route_next_node_eq, if_pos hforce]
        exact ⟨_, loop_generate_step cfg (fuel + 1) s (by rw [hroute, edgeTarget_generate])⟩
      · have hroute : route_next_node (applyUpdate s (router_node cfg.current_year s)) =
            "search_web" := by
          rw [route_next_node_eq, if_neg hforce, applyUpdate_next_action, hna,
            if_neg (by decide), if_pos rfl]
        rcases htool : cfg.search_tool with _ | tool
        · have htgt : edgeTarget cfg
              (route_next_node (applyUpdate s (router_node cfg.current_year s))) =
              "generate" := by
            rw [hroute, edgeTarget_search, htool]
            rfl
          exact ⟨_, loop_generate_step cfg (fuel + 1) s htgt⟩
        · have htgt : edgeTarget cfg
              (route_next_node (applyUpdate s (router_node cfg.current_year s))) =
              "search_web" := by
            rw [hroute, edgeTarget_search, htool]
            rfl
          obtain ⟨r, hr⟩ := loop_gen_of_policy cfg fuel
            (applyUpdate (applyUpdate s (router_node cfg.current_year s))
              (web_search_node tool (applyUpdate s (router_node cfg.current_year s))))
            (by simp [hc2.1]) (by simp)
          exact ⟨_, by rw [loop_search_step cfg (fuel + 1) s tool htool htgt, hr]⟩
    · obtain ⟨r, hr⟩ := loop_gen_of_policy cfg (fuel + 1) s hc1 hc2
      exact ⟨r, hr⟩

/-- A run with budget at least 1 always produces a result. -/
theorem run_terminates (cfg : GraphConfig) (q : String) (mi : Nat) (h : 1 ≤ mi) :
    ∃ r, run cfg q mi = some r := by
  obtain ⟨m, rfl⟩ : ∃ m, mi = m + 1 := ⟨mi - 1, by omega⟩
  exact loop_terminates cfg m (create_initial_state q (m + 1))

/-! ### Claim C3 -/

/-- C3: for every query, every budget of at least 1 and every adapter
behavior, the run terminates after at most max_iterations + 1 dispatches and
the final state has an answer present. -/
theorem C3_termination_bound (cfg : GraphConfig) (q : String) (mi : Nat) (h : 1 ≤ mi) :
    ∃ r, run cfg q mi = some r ∧ r.dispatches.length ≤ mi + 1 ∧
      r.final.answer.isSome = true := by
  obtain ⟨r, hr⟩ := run_terminates cfg q mi h
  refine ⟨r, hr, loop_dispatches_le cfg (mi + 1) _ r hr, ?_⟩
  obtain ⟨t, ht⟩ := loop_final_eq_generate cfg (mi + 1) _ r hr
  rw [ht]
  rfl

/-- Witness for C3 at a concrete configuration and query. -/
theorem C3_termination_bound_witness :
    ∃ r, run ⟨2025, some (fun _ => ["d"]), none, some (fun _ => some "a")⟩ "hello" 5 =
        some r ∧ r.dispatches.length ≤ 5 + 1 ∧ r.final.answer.isSome = true :=
  C3_termination_bound ⟨2025, some (fun _ => ["d"]), none, some (fun _ => some "a")⟩
    "hello" 5 (by decide)

/-! ### Claim C4 -/

theorem edgeTarget_retrieve_inv (cfg : GraphConfig) (route : String)
    (h : edgeTarget cfg route = "retrieve") : route = "retrieve" := by
  unfold edgeTarget at h
  split at h
  · assumption
  · split at h
    · split at h
      · exact absurd h (by decide)
      · exact absurd h (by decide)
    · exact absurd h (by decide)

theorem route_next_retrieve_inv (s : AgentState) (h : route_next_node s = "retrieve") :
    s.next_action = some "retrieve" := by
  rw [route_next_node_eq] at h
  split at h
  · exact absurd h (by decide)
  · split at h
    · assumption
    · split at h
      · exact absurd h (by decide)
      · exact absurd h (by decide)

/-- For a recency-sensitive query the loop never dispatches retrieve and
retrieved_docs stays absent in every reached state. -/
theorem loop_recency_invariant (cfg : GraphConfig) :
    ∀ fuel s r, needs_web cfg.current_year s.query = true → s.retrieved_docs = none →
      loop cfg fuel s = some r →
      "retrieve" ∉ r.dispatches ∧ (∀ x ∈ r.states, x.retrieved_docs = none) ∧
        r.final.retrieved_docs = none := by
  intro fuel
  induction fuel with
  | zero =>
    intro s r hb hd h
    exact absurd h (by simp [loop])
  | succ n ih =>
    intro s r hb hd h
    simp only [loop] at h
    split at h
    · rename_i htgt
      exfalso
      have h1 := route_next_retrieve_inv _ (edgeTarget_retrieve_inv cfg _ htgt)
      rw [applyUpdate_next_action, router_node_next_action,
        if_neg (by simp [hb])] at h1
      have h2 := Option.some.inj h1
      split at h2
      · exact absurd h2 (by decide)
      · exact absurd h2 (by decide)
    · split at h
      · split at h
        · exact absurd h (by simp)
        · rename_i tool
          split at h
          · exact absurd h (by simp)
          · rename_i r' heq
            obtain rfl := Option.some.inj h
            obtain ⟨ih1, ih2, ih3⟩ := ih _ _ (by simp [hb]) (by simp [hd]) heq
            refine ⟨?_, ?_, ih3⟩
            · intro hmem
              rcases List.mem_cons.mp hmem with hc | hc
              · exact absurd hc (by decide)
              · exact ih1 hc
            · intro x hx
              rcases List.mem_cons.mp hx with rfl | hx
              · simp [hd]
              rcases List.mem_cons.mp hx with rfl | hx
              · simp [hd]
              · exact ih2 x hx
      · obtain rfl := Option.some.inj h
        refine ⟨?_, ?_, by simp [hd]⟩
        · intro hm
          rcases List.mem_cons.mp hm with hc | hc
          · exact absurd hc (by decide)
          · exact absurd hc (by simp)
        intro x hx
        rcases List.mem_cons.mp hx with rfl | hx
        · simp [hd]
        rcases List.mem_cons.mp hx with rfl | hx
        · simp [hd]
        · exact absurd hx (by simp)

/-- C4: for every recency-sensitive query, retrieved_docs remains absent in
every state reached during the run and the retrieve action is never
dispatched. -/
theorem C4_recency_never_retrieves (cfg : GraphConfig) (q : String) (mi : Nat)
    (h : 1 ≤ mi) (hb : needs_web cfg.current_year q = true) :
    ∃ r, run cfg q mi = some r ∧ "retrieve" ∉ r.dispatches ∧
      (∀ x ∈ r.states, x.retrieved_docs = none) ∧ r.final.retrieved_docs = none := by
  obtain ⟨r, hr⟩ := run_terminates cfg q mi h
  obtain ⟨h1, h2, h3⟩ := loop_recency_invariant cfg (mi + 1)
    (create_initial_state q mi) r (by simpa using hb) rfl hr
  exact ⟨r, hr, h1, h2, h3⟩

/-- Witness for C4 with a query containing the keyword latest. -/
theorem C4_recency_never_retrieves_witness :
    ∃ r, run ⟨2025, some (fun _ => ["d"]), some (fun _ => ["w"]), some (fun _ => some "a")⟩
        "the latest trends" 5 = some r ∧ "retrieve" ∉ r.dispatches ∧
      (∀ x ∈ r.states, x.retrieved_docs = none) ∧ r.final.retrieved_docs = none :=
  C4_recency_never_retrieves
    ⟨2025, some (fun _ => ["d"]), some (fun _ => ["w"]), some (fun _ => some "a")⟩
    "the latest trends" 5 (by decide) (by decide)

/-! ### Claim C5 -/

/-- C5: evaluation of the run at the failing input. For the plain query hello
with a retriever returning one document and a working synthesizer, exactly two
non-routing nodes are dispatched (retrieve, then generate), yet the final
messages list has length 5, not 2: because the messages channel carries the
operator.add reducer while every node returns the whole state (including the
messages it read), each node execution re-appends the existing messages, so
the evidence-log length does not equal the number of dispatched steps. -/
theorem C5_evidence_log_length_mismatch :
    (run ⟨2025, some (fun _ => ["doc1"]), none, some (fun _ => some "ans")⟩ "hello" 5).map
        (fun r => (r.dispatches, r.final.messages.length)) =
      some (["retrieve", "generate"], 5) := by
  decide

/-! ### Claim C6 -/

/-- C6: if the synthesizer call fails (raises) the run still completes
successfully, with the answer set to the fixed apology string; the failure is
not propagated to the caller. -/
theorem C6_synthesis_failure_degraded (cfg : GraphConfig) (q : String) (mi : Nat)
    (h : 1 ≤ mi) (f : String → Option String) (hllm : cfg.llm = some f)
    (hfail : ∀ p, f p = none) :
    ∃ r, run cfg q mi = some r ∧
      r.final.answer = some "I apologize, but I encountered an issue while generating the answer. Please try again." := by
  obtain ⟨r, hr⟩ := run_terminates cfg q mi h
  obtain ⟨t, ht⟩ := loop_final_eq_generate cfg (mi + 1) _ r hr
  refine ⟨r, hr, ?_⟩
  rw [ht, applyUpdate_answer]
  unfold generate_answer_node
  simp only [hllm, invokeLLM, hfail]
  rfl

/-- Witness for C6: an always-failing synthesizer on a concrete run. -/
theorem C6_synthesis_failure_degraded_witness :
    ∃ r, run ⟨2025, some (fun _ => ["d"]), none, some (fun _ => none)⟩ "hello" 5 = some r ∧
      r.final.answer = some "I apologize, but I encountered an issue while generating the answer. Please try again." :=
  C6_synthesis_failure_degraded ⟨2025, some (fun _ => ["d"]), none, some (fun _ => none)⟩
    "hello" 5 (by decide) (fun _ => none) rfl (fun _ => rfl)

/-! ### Claim C9 -/

/-- C9 counterexample: with no synthesizer configured (llm slot empty), the
run call does not fail with a distinct no-synthesizer-configured signal; it
returns a result object whose answer is the fixed degraded-answer string,
because the generate node catches the attribute error from invoking None. -/
theorem C9_no_synthesizer_counterexample :
    (run ⟨2025, none, none, none⟩ "hello" 5).map (fun r => r.final.answer) =
      some (some "I apologize, but I encountered an issue while generating the answer. Please try again.") := by
  decide

/-- C9 amended: if no synthesizer adapter is configured, the run does not fail
with a configuration error; it completes and returns a result whose answer is
the fixed degraded-answer string. -/
theorem C9_no_synthesizer_degrades (cfg : GraphConfig) (q : String) (mi : Nat)
    (h : 1 ≤ mi) (hllm : cfg.llm = none) :
    ∃ r, run cfg q mi = some r ∧
      r.final.answer = some "I apologize, but I encountered an issue while generating the answer. Please try again." := by
  obtain ⟨r, hr⟩ := run_terminates cfg q mi h
  obtain ⟨t, ht⟩ := loop_final_eq_generate cfg (mi + 1) _ r hr
  refine ⟨r, hr, ?_⟩
  rw [ht, applyUpdate_answer]
  unfold generate_answer_node
  simp only [hllm, invokeLLM]
  rfl

/-- Witness for the amended C9 on a concrete run. -/
theorem C9_no_synthesizer_degrades_witness :
    ∃ r, run ⟨2025, some (fun _ => ["d"]), some (fun _ => ["w"]), none⟩ "hello" 3 = some r ∧
      r.final.answer = some "I apologize, but I encountered an issue while generating the answer. Please try again." :=
  C9_no_synthesizer_degrades ⟨2025, some (fun _ => ["d"]), some (fun _ => ["w"]), none⟩
    "hello" 3 (by decide) rfl

/-! ### Claim C7 -/

/-- C7: the two adapter boundaries never raise: when the underlying web-search
call or any step of the local-retrieval pipeline (collection check, query
embedding, database search) fails, the adapter returns the empty sequence, so
a failed source is recorded as attempted with zero results. -/
theorem C7_adapter_boundaries (client : String → Except String TavilyResponse)
    (q e : String) (db : QdrantDatabase) (coll : String)
    (emb : String → Except String (List Int)) (k : Nat) :
    (client q = Except.error e → tavilySearch client q = []) ∧
    (db.collection_exists coll = Except.error e → localRetrieve db coll emb k q = []) ∧
    (db.collection_exists coll = Except.ok true → emb q = Except.error e →
      localRetrieve db coll emb k q = []) ∧
    (∀ v, db.collection_exists coll = Except.ok true → emb q = Except.ok v →
      db.search coll v k = Except.error e → localRetrieve db coll emb k q = []) := by
  refine ⟨?_, ?_, ?_, ?_⟩
  · intro h
    unfold tavilySearch
    rw [h]
  · intro h
    unfold localRetrieve
    rw [h]
    rfl
  · intro h1 h2
    unfold localRetrieve
    rw [h1]
    show (match (emb q >>= fun query_vector =>
      db.search coll query_vector k >>= fun results =>
        pure (extractDocuments results) : Except String (List String)) with
      | Except.ok documents => documents
      | Except.error _ => []) = []
    rw [h2]
    rfl
  · intro v h1 h2 h3
    unfold localRetrieve
    rw [h1]
    show (match (emb q >>= fun query_vector =>
      db.search coll query_vector k >>= fun results =>
        pure (extractDocuments results) : Except String (List String)) with
      | Except.ok documents => documents
      | Except.error _ => []) = []
    rw [h2]
    show (match (db.search coll v k >>= fun results =>
      pure (extractDocuments results) : Except String (List String)) with
      | Except.ok documents => documents
      | Except.error _ => []) = []
    rw [h3]
    rfl

/-- Witness for C7: concrete failing collaborators at both boundaries. -/
theorem C7_adapter_boundaries_witness :
    tavilySearch (fun _ => Except.error "boom") "q" = [] ∧
    localRetrieve ⟨fun _ => Except.error "down", fun _ _ _ => Except.error "down"⟩ "docs"
      (fun _ => Except.error "down") 5 "q" = [] :=
  ⟨(C7_adapter_boundaries (fun _ => Except.error "boom") "q" "boom"
      ⟨fun _ => Except.error "down", fun _ _ _ => Except.error "down"⟩ "docs"
      (fun _ => Except.error "down") 5).1 rfl,
    (C7_adapter_boundaries (fun _ => Except.error "boom") "q" "down"
      ⟨fun _ => Except.error "down", fun _ _ _ => Except.error "down"⟩ "docs"
      (fun _ => Except.error "down") 5).2.1 rfl⟩

/-! ### Claim C8 -/

theorem string_ne_of_head (s t : String) (a b : Char) (as bs : List Char)
    (ha : s.data = a :: as) (hb : t.data = b :: bs) (hab : a ≠ b) : s ≠ t := by
  intro h
  subst h
  rw [ha] at hb
  injection hb with h1 _
  exact hab h1

theorem item1_data (d : String) :
    (toString 1 ++ ". " ++ truncItem d).data = '1' :: '.' :: ' ' :: (truncItem d).data := by
  rw [String.data_append]
  rfl

theorem item2_data (d : String) :
    (toString 2 ++ ". " ++ truncItem d).data = '2' :: '.' :: ' ' :: (truncItem d).data := by
  rw [String.data_append]
  rfl

theorem item3_data (d : String) :
    (toString 3 ++ ". " ++ truncItem d).data = '3' :: '.' :: ' ' :: (truncItem d).data := by
  rw [String.data_append]
  rfl

/-- A string whose first character is not a digit 1, 2 or 3 is not among the
numbered items rendered from the first three kept entries. -/
theorem header_not_mem_numberFrom (x : String) (xc : Char) (xs : List Char)
    (hx : x.data = xc :: xs) (h1 : xc ≠ '1') (h2 : xc ≠ '2') (h3 : xc ≠ '3')
    (l : List String) : x ∉ numberFrom 1 (l.take 3) := by
  have hlen : (l.take 3).length ≤ 3 := List.length_take_le 3 l
  intro hmem
  rcases hl : l.take 3 with _ | ⟨a, tl⟩
  · rw [hl] at hmem
    exact absurd hmem (by simp [numberFrom])
  rcases tl with _ | ⟨b, tl2⟩
  · rw [hl] at hmem
    simp only [numberFrom, List.mem_singleton] at hmem
    exact string_ne_of_head x _ xc '1' xs _ hx (item1_data a) h1 hmem
  rcases tl2 with _ | ⟨c, tl3⟩
  · rw [hl] at hmem
    simp only [numberFrom, List.mem_cons, List.not_mem_nil, or_false] at hmem
    rcases hmem with hmem | hmem
    · exact string_ne_of_head x _ xc '1' xs _ hx (item1_data a) h1 hmem
    · exact string_ne_of_head x _ xc '2' xs _ hx (item2_data b) h2 hmem
  · have htl3 : tl3 = [] := by
      rw [hl] at hlen
      simp only [List.length_cons] at hlen
      exact List.eq_nil_of_length_eq_zero (by omega)
    subst htl3
    rw [hl] at hmem
    simp only [numberFrom, List.mem_cons, List.not_mem_nil, or_false] at hmem
    rcases hmem with hmem | hmem | hmem
    · exact string_ne_of_head x _ xc '1' xs _ hx (item1_data a) h1 hmem
    · exact string_ne_of_head x _ xc '2' xs _ hx (item2_data b) h2 hmem
    · exact string_ne_of_head x _ xc '3' xs _ hx (item3_data c) h3 hmem

theorem localHeader_not_mem_webSection (web : List String) :
    "## Local Knowledge Base:" ∉ webSection web := by
  unfold webSection
  split
  · simp
  · intro hmem
    rcases List.mem_cons.mp hmem with hc | hc
    · exact absurd hc (by decide)
    · exact header_not_mem_numberFrom _ '#' _ rfl (by decide) (by decide) (by decide) web hc

theorem webHeader_not_mem_localSection (docs : List String) :
    "\n## Web Search Results:" ∉ localSection docs := by
  unfold localSection
  split
  · simp
  · intro hmem
    rcases List.mem_cons.mp hmem with hc | hc
    · exact absurd hc (by decide)
    · exact header_not_mem_numberFrom _ '\n' _ rfl (by decide) (by decide) (by decide)
        docs hc

theorem localSection_take (docs : List String) :
    localSection (docs.take 3) = localSection docs := by
  unfold localSection
  by_cases hd : docs = []
  · subst hd
    simp
  · rw [if_neg hd, if_neg (by simp [List.take_eq_nil_iff, hd]), List.take_take]
    norm_num

theorem webSection_take (web : List String) :
    webSection (web.take 3) = webSection web := by
  unfold webSection
  by_cases hw : web = []
  · subst hw
    simp
  · rw [if_neg hw, if_neg (by simp [List.take_eq_nil_iff, hw]), List.take_take]
    norm_num

/-- C8: the assembled context has a labeled local-knowledge section iff
retrieved docs are non-empty and a labeled web-results section iff web results
are non-empty; each section keeps at most the first 3 items in input order;
items longer than 500 characters are cut at 500 characters and end with the
truncation marker while items at or under 500 characters appear verbatim; and
with no content from either source the result is the fixed sentinel. -/
theorem C8_context_assembly (docs web : List String) (doc : String) :
    (("## Local Knowledge Base:" ∈ contextParts docs web) ↔ docs ≠ []) ∧
    (("\n## Web Search Results:" ∈ contextParts docs web) ↔ web ≠ []) ∧
    assembleContext docs web = assembleContext (docs.take 3) (web.take 3) ∧
    (doc.length > 500 → truncItem doc = doc.take 500 ++ "... [truncated]") ∧
    (doc.length ≤ 500 → truncItem doc = doc) ∧
    assembleContext [] [] = "No additional context available." := by
  refine ⟨?_, ?_, ?_, ?_, ?_, ?_⟩
  · constructor
    · intro hmem hd
      subst hd
      have hmem2 : "## Local Knowledge Base:" ∈ webSection web := by
        simpa [contextParts, localSection] using hmem
      exact localHeader_not_mem_webSection web hmem2
    · intro hd
      unfold contextParts localSection
      rw [if_neg hd]
      exact List.mem_append.mpr (Or.inl (List.mem_cons_self _ _))
  · constructor
    · intro hmem hw
      subst hw
      have hmem2 : "\n## Web Search Results:" ∈ localSection docs := by
        simpa [contextParts, webSection] using hmem
      exact webHeader_not_mem_localSection docs hmem2
    · intro hw
      unfold contextParts webSection
      rw [if_neg hw]
      exact List.mem_append.mpr (Or.inr (List.mem_cons_self _ _))
  · unfold assembleContext contextParts
    rw [localSection_take, webSection_take]
  · intro h
    simp only [truncItem, MAX_CONTEXT_LENGTH]
    rw [if_pos h]
  · intro h
    simp only [truncItem, MAX_CONTEXT_LENGTH]
    rw [if_neg (by omega)]
    exact String.ext (by rw [String.data_take]; exact List.take_of_length_le h)
  · rfl

/-- Witness for C8 at concrete inputs: a short item is reproduced verbatim. -/
theorem C8_context_assembly_witness :
    truncItem "short doc" = "short doc" :=
  (C8_context_assembly ["a"] [] "short doc").2.2.2.2.1 (by decide)
